import Mathlib

/-!
# Verification of jailhouse `hypervisor/arch/arm-common/control.c`

Shallow embedding of the per-CPU lifecycle and inter-processor-signalling
controller of the jailhouse hypervisor (arm-common architecture backend),
together with proofs of the specification's testable properties.

The embedding has two layers:

* a *sequential* layer: each C function is a Lean function from the per-CPU
  control state to a new state plus the list of calls it makes into external
  collaborators (`arm_cpu_reset`, `arm_paging_vcpu_init`, the irqchip, ...).
  `check_events` is modelled for an uninterfered pass: when `suspend_cpu` is
  set and no other core ever clears it, the pass spins forever, which the
  embedding renders as `none`;

* a *concurrent* layer for the suspend/resume protocol: a labelled
  transition system whose atomic steps are exactly the lock-protected
  critical sections and the individual spin-loop reads of the C code, with
  environment labels for the requests other cores can issue.

Lock discipline is modelled separately by per-function instruction traces
(lock / unlock / field-write events) and a lock-depth scanning predicate.
-/

set_option autoImplicit false

namespace ArmControl

/-- Modelled from the spec: the "invalid entry" sentinel `PSCI_INVALID_ADDRESS`
from `asm/psci.h` (header not in the sources); an address value compared only
by equality, `(-1L)` read as an unsigned 64-bit value. -/
def PSCI_INVALID_ADDRESS : Nat := 2 ^ 64 - 1

/-- Modelled from the spec: the inject-kind SGI id from `asm/control.h`
(header not in the sources); only distinctness from `SGI_EVENT` matters. -/
def SGI_INJECT : Nat := 0

/-- Modelled from the spec: the management-event SGI id from `asm/control.h`
(header not in the sources); only distinctness from `SGI_INJECT` matters. -/
def SGI_EVENT : Nat := 1

/-- The per-CPU control state (`struct per_cpu`) fields used by
`arm-common/control.c`: the lifecycle flags guarded by `control_lock`, the
recorded power-on entry address, and the exit-reason counters. -/
structure PerCpu where
  suspend_cpu : Bool
  cpu_suspended : Bool
  park : Bool
  reset : Bool
  wait_for_poweron : Bool
  flush_vcpu_caches : Bool
  cpu_on_entry : Nat
  stats_vsgi : Nat
  stats_management : Nat
  stats_maintenance : Nat
  stats_virq : Nat
  deriving DecidableEq, Repr

/-- Which virtual address space `arm_paging_vcpu_init` installs. -/
inductive PagingMode where
  | parking
  deriving DecidableEq, Repr

/-- A call into one of the external collaborators (out of scope of this
translation unit), recorded in order of occurrence. -/
inductive ExtCall where
  | cpuReset (entry : Nat)
  | pagingVcpuInit (m : PagingMode)
  | tlbFlush
  | injectPending
  | setPending (irqn : Nat)
  | sendSGI (targets : Nat) (id : Nat)
  | dcacheFlush
  deriving DecidableEq, Repr

/-- `enter_cpu_off`: clear `park`, set `wait_for_poweron` (called with
`control_lock` held). -/
def enter_cpu_off (c : PerCpu) : PerCpu :=
  { c with park := false, wait_for_poweron := true }

/-- `arm_cpu_park`: under `control_lock` run `enter_cpu_off`, then reset the
core's execution context to entry address 0 and install the parking address
space. -/
def arm_cpu_park (c : PerCpu) : PerCpu × List ExtCall :=
  (enter_cpu_off c, [ExtCall.cpuReset 0, ExtCall.pagingVcpuInit PagingMode.parking])

/-- `arm_cpu_kick`: send the management-event SGI to the one core in the
target mask `1 << cpu_id`. -/
def arm_cpu_kick (cpu_id : Nat) : List ExtCall :=
  [ExtCall.sendSGI (2 ^ cpu_id) SGI_EVENT]

/-- `arch_suspend_cpu`, sequential view: under the target's lock set
`suspend_cpu` and read `cpu_suspended`. If the target was already suspended
the function returns at once having sent no signal (`some (state, 0)`).
Otherwise it kicks the target and spins until `cpu_suspended` becomes true;
with no target core acting, that spin never terminates, rendered `none`. -/
def arch_suspend_cpu (c : PerCpu) : Option (PerCpu × Nat) :=
  let c1 := { c with suspend_cpu := true }
  if c.cpu_suspended then some (c1, 0) else none

/-- `arch_resume_cpu`: under the target's lock clear `suspend_cpu`. -/
def arch_resume_cpu (c : PerCpu) : PerCpu :=
  { c with suspend_cpu := false }

/-- `arch_reset_cpu`: set the target's `reset` flag (no lock taken for this
store), then `arch_resume_cpu`. -/
def arch_reset_cpu (c : PerCpu) : PerCpu :=
  arch_resume_cpu { c with reset := true }

/-- `arch_park_cpu`: set the target's `park` flag (no lock taken for this
store), then `arch_resume_cpu`. -/
def arch_park_cpu (c : PerCpu) : PerCpu :=
  arch_resume_cpu { c with park := true }

/-- The body of `check_events` executed under the lock once `suspend_cpu` is
observed clear (control.c lines 110-135): clear `cpu_suspended`; if `park`
is set take the powered-off transition; else if `reset` is set consume it and
either record a pending reset (valid `cpu_on_entry`) or fall back to the
powered-off transition; finally consume a pending `flush_vcpu_caches`.
Returns the new state, the local `reset` decision variable, and the calls
made (the TLB flush). -/
def event_check_body (c : PerCpu) : PerCpu × Bool × List ExtCall :=
  let c1 := { c with cpu_suspended := false }
  let (c2, r) :=
    if c1.park then (enter_cpu_off c1, false)
    else if c1.reset then
      let c1' := { c1 with reset := false }
      if c1'.cpu_on_entry ≠ PSCI_INVALID_ADDRESS then
        ({ c1' with wait_for_poweron := false }, true)
      else (enter_cpu_off c1', false)
    else (c1, false)
  if c2.flush_vcpu_caches then
    ({ c2 with flush_vcpu_caches := false }, r, [ExtCall.tlbFlush])
  else (c2, r, [])

/-- Which of the two mutually exclusive tail branches of `check_events`
(control.c lines 143-146) ran: the park path, the reset-entry path, or
neither (plain resume back to the guest). -/
inductive CheckOutcome where
  | parked
  | resetTo (entry : Nat)
  | resumed
  deriving DecidableEq, Repr

/-- One uninterfered `check_events` pass. If `suspend_cpu` is set on entry
and no other core clears it, the pass suspends forever (`none`). Otherwise
it runs `event_check_body` under the lock and then, outside the lock,
dispatches on `wait_for_poweron` (park path) and the local reset decision
(reset-entry path). -/
def check_events (c : PerCpu) : Option (PerCpu × CheckOutcome × List ExtCall) :=
  if c.suspend_cpu then none
  else
    let b := event_check_body c
    if b.1.wait_for_poweron then
      some ((arm_cpu_park b.1).1, CheckOutcome.parked, b.2.2 ++ (arm_cpu_park b.1).2)
    else if b.2.1 then
      some (b.1, CheckOutcome.resetTo b.1.cpu_on_entry,
            b.2.2 ++ [ExtCall.cpuReset b.1.cpu_on_entry])
    else some (b.1, CheckOutcome.resumed, b.2.2)

/-- `arch_handle_sgi`: dispatch a received SGI by id. Inject-kind: count a
virtual-SGI vmexit and flush pending virtual interrupts into the guest.
Management-event: count a management vmexit and run an event-check pass.
Anything else: log a warning and do nothing. Returns the new state, the
external calls, and the log lines. -/
def arch_handle_sgi (c : PerCpu) (irqn count_event : Nat) :
    Option (PerCpu × List ExtCall × List String) :=
  if irqn = SGI_INJECT then
    some ({ c with stats_vsgi := c.stats_vsgi + count_event },
          [ExtCall.injectPending], [])
  else if irqn = SGI_EVENT then
    match check_events { c with stats_management := c.stats_management + count_event } with
    | none => none
    | some (c', _, calls) => some (c', calls, [])
  else
    some (c, [], ["WARN: unknown SGI received " ++ toString irqn])

/-- `arch_handle_phys_irq`: the maintenance interrupt is consumed by the
hypervisor (count a maintenance vmexit, flush pending injections, return
true); every other physical interrupt is forwarded to the cell (count a
virtual-IRQ vmexit, mark it pending once, return false). -/
def arch_handle_phys_irq (maintenance_irq : Nat) (c : PerCpu)
    (irqn count_event : Nat) : Bool × PerCpu × List ExtCall :=
  if irqn = maintenance_irq then
    (true, { c with stats_maintenance := c.stats_maintenance + count_event },
     [ExtCall.injectPending])
  else
    (false, { c with stats_virq := c.stats_virq + count_event },
     [ExtCall.setPending irqn])

/-- `arch_cell_reset`: flush-and-invalidate the cell's data caches
(delegated). -/
def arch_cell_reset : List ExtCall := [ExtCall.dcacheFlush]

/-- The `for_each_cpu` loop of `arch_flush_cell_vcpu_caches` over the
remaining cpu ids of the cell's cpu set: the calling core flushes its own
TLBs inline, every other core merely gets its `flush_vcpu_caches` flag set. -/
def flush_cell_loop (this_cpu : Nat) (cpu_set : List Nat)
    (cpus : Nat → PerCpu) (calls : List ExtCall) : (Nat → PerCpu) × List ExtCall :=
  match cpu_set with
  | [] => (cpus, calls)
  | cpu :: rest =>
    if cpu = this_cpu then
      flush_cell_loop this_cpu rest cpus (calls ++ [ExtCall.tlbFlush])
    else
      flush_cell_loop this_cpu rest
        (Function.update cpus cpu { cpus cpu with flush_vcpu_caches := true }) calls

/-- `arch_flush_cell_vcpu_caches`: fan the flush request out across the
cell's cpu set, synchronously for the calling core and as a deferred flag
for every other core; no signal is sent and nothing is waited for. -/
def arch_flush_cell_vcpu_caches (this_cpu : Nat) (cpu_set : List Nat)
    (cpus : Nat → PerCpu) : (Nat → PerCpu) × List ExtCall :=
  flush_cell_loop this_cpu cpu_set cpus []

/-! ## Lock-discipline traces

Each public entry point is transcribed as the sequence of lock operations,
control-state field writes and collaborator calls it performs, in program
order; a scanning predicate then checks which writes happen with the lock
held. -/

/-- A field of the per-CPU control state. -/
inductive CtrlField where
  | suspend_cpu
  | cpu_suspended
  | park
  | reset
  | wait_for_poweron
  | flush_vcpu_caches
  | cpu_on_entry
  deriving DecidableEq, Repr

/-- One instruction-level event of a function: taking or releasing the
core's `control_lock`, writing one control-state field, or calling a
collaborator. -/
inductive TraceEv where
  | lock
  | unlock
  | write (f : CtrlField)
  | call (c : ExtCall)
  deriving DecidableEq, Repr

/-- Scan a trace with the current lock depth: every field write other than
`wait_for_poweron` must happen at positive depth. -/
def writes_locked_from : Nat → List TraceEv → Bool
  | _, [] => true
  | d, TraceEv.lock :: r => writes_locked_from (d + 1) r
  | d, TraceEv.unlock :: r => writes_locked_from (d - 1) r
  | d, TraceEv.write f :: r =>
      (decide (f = CtrlField.wait_for_poweron) || decide (0 < d)) && writes_locked_from d r
  | d, TraceEv.call _ :: r => writes_locked_from d r

/-- All control-state writes of the trace, `wait_for_poweron` excepted,
happen while the lock is held. -/
def writes_locked (t : List TraceEv) : Bool := writes_locked_from 0 t

/-- Scan a trace with the current lock depth: every field write, including
`wait_for_poweron`, must happen at positive depth. -/
def all_writes_locked_from : Nat → List TraceEv → Bool
  | _, [] => true
  | d, TraceEv.lock :: r => all_writes_locked_from (d + 1) r
  | d, TraceEv.unlock :: r => all_writes_locked_from (d - 1) r
  | d, TraceEv.write _ :: r => decide (0 < d) && all_writes_locked_from d r
  | d, TraceEv.call _ :: r => all_writes_locked_from d r

/-- Every control-state write of the trace happens while the lock is held. -/
def all_writes_locked (t : List TraceEv) : Bool := all_writes_locked_from 0 t

/-- Trace of `arch_resume_cpu`: clear `suspend_cpu` under the target's
lock. -/
def arch_resume_cpu_trace : List TraceEv :=
  [TraceEv.lock, TraceEv.write CtrlField.suspend_cpu, TraceEv.unlock]

/-- Trace of `arch_suspend_cpu` when the target is already suspended: set
`suspend_cpu` under the target's lock, read `cpu_suspended`, return. -/
def arch_suspend_cpu_fast_trace : List TraceEv :=
  [TraceEv.lock, TraceEv.write CtrlField.suspend_cpu, TraceEv.unlock]

/-- Trace of `arch_suspend_cpu` when the target was not suspended: the
locked flag write followed by the kick (the spin wait performs no writes). -/
def arch_suspend_cpu_slow_trace (cpu_id : Nat) : List TraceEv :=
  [TraceEv.lock, TraceEv.write CtrlField.suspend_cpu, TraceEv.unlock,
   TraceEv.call (ExtCall.sendSGI (2 ^ cpu_id) SGI_EVENT)]

/-- Trace of `arch_reset_cpu`: the `reset` store happens before the lock of
the embedded `arch_resume_cpu` is taken. -/
def arch_reset_cpu_trace : List TraceEv :=
  TraceEv.write CtrlField.reset :: arch_resume_cpu_trace

/-- Trace of `arch_park_cpu`: the `park` store happens before the lock of
the embedded `arch_resume_cpu` is taken. -/
def arch_park_cpu_trace : List TraceEv :=
  TraceEv.write CtrlField.park :: arch_resume_cpu_trace

/-- Trace of the remote-core arm of the `arch_flush_cell_vcpu_caches` loop:
a bare `flush_vcpu_caches` store, no lock operation at all. -/
def flush_remote_cpu_trace : List TraceEv :=
  [TraceEv.write CtrlField.flush_vcpu_caches]

/-- Trace of `arm_cpu_park`: `enter_cpu_off`'s two writes under the lock,
then the context reset to entry 0, then the parking address space. -/
def arm_cpu_park_trace : List TraceEv :=
  [TraceEv.lock, TraceEv.write CtrlField.park, TraceEv.write CtrlField.wait_for_poweron,
   TraceEv.unlock, TraceEv.call (ExtCall.cpuReset 0),
   TraceEv.call (ExtCall.pagingVcpuInit PagingMode.parking)]

/-! ## Concurrent model of the suspend/resume protocol

A labelled transition system over one target core's control state. The
owner's `check_events` is cut at exactly the points where the C code
releases `control_lock`: each lock...unlock critical section is one atomic
step, and each read of the spin loop (line 105) is one step. Environment
labels model the lock-protected requester operations (`arch_suspend_cpu`'s
critical section and its acknowledgment-spin reads, `arch_resume_cpu`) and
the lock-free flag stores of `arch_park_cpu`, `arch_reset_cpu`,
`arch_flush_cell_vcpu_caches` and of the PSCI layer recording
`cpu_on_entry`. -/

/-- Owner-core control location inside `check_events`: `idle` (not in the
routine), `spin` (between the unlock at line 103 and the re-lock at line
108), `tail` (after the final unlock, before lines 143-146). -/
inductive OwnerLoc where
  | idle
  | spin
  | tail
  deriving DecidableEq, Repr

/-- Requester location inside `arch_suspend_cpu`: `idle` (not called yet),
`wait` (spinning on `cpu_suspended` after the kick), `ret` (returned). -/
inductive ReqLoc where
  | idle
  | wait
  | ret
  deriving DecidableEq, Repr

/-- Global state of the concurrent model: the target core's control state,
the owner's and the requester's control locations, the owner's local
`reset` decision variable of `check_events`, and the number of management
signals sent so far. -/
structure Sys where
  cpu : PerCpu
  owner : OwnerLoc
  req : ReqLoc
  resetDecided : Bool
  sigCount : Nat
  deriving DecidableEq, Repr

/-- Step labels: owner micro-steps of `check_events`, requester steps of
`arch_suspend_cpu`, and the environment requests. -/
inductive Label where
  | enterCheck
  | spinRead
  | relock
  | tailRun
  | suspendCall
  | reqSpinRead
  | resume
  | parkReq
  | resetReq
  | flushReq
  | setEntry (e : Nat)
  deriving DecidableEq, Repr

/-- The transition relation. Each constructor is one atomic step as cut by
the lock structure of control.c. -/
inductive Step : Sys → Label → Sys → Prop where
  | enterCheck (s : Sys) (h : s.owner = OwnerLoc.idle) :
      Step s Label.enterCheck
        { s with owner := OwnerLoc.spin, resetDecided := false,
                 cpu := if s.cpu.suspend_cpu then { s.cpu with cpu_suspended := true }
                        else s.cpu }
  | spinRead (s : Sys) (h : s.owner = OwnerLoc.spin) (hs : s.cpu.suspend_cpu = true) :
      Step s Label.spinRead s
  | relockAgain (s : Sys) (h : s.owner = OwnerLoc.spin) (hs : s.cpu.suspend_cpu = true) :
      Step s Label.relock { s with cpu := { s.cpu with cpu_suspended := true } }
  | relockExit (s : Sys) (h : s.owner = OwnerLoc.spin) (hs : s.cpu.suspend_cpu = false) :
      Step s Label.relock
        { s with owner := OwnerLoc.tail,
                 cpu := (event_check_body s.cpu).1,
                 resetDecided := (event_check_body s.cpu).2.1 }
  | tailRun (s : Sys) (h : s.owner = OwnerLoc.tail) :
      Step s Label.tailRun
        { s with owner := OwnerLoc.idle,
                 cpu := if s.cpu.wait_for_poweron then enter_cpu_off s.cpu else s.cpu }
  | suspendHit (s : Sys) (h : s.req = ReqLoc.idle) (hs : s.cpu.cpu_suspended = true) :
      Step s Label.suspendCall
        { s with req := ReqLoc.ret, cpu := { s.cpu with suspend_cpu := true } }
  | suspendMiss (s : Sys) (h : s.req = ReqLoc.idle) (hs : s.cpu.cpu_suspended = false) :
      Step s Label.suspendCall
        { s with req := ReqLoc.wait, cpu := { s.cpu with suspend_cpu := true },
                 sigCount := s.sigCount + 1 }
  | reqSpinStay (s : Sys) (h : s.req = ReqLoc.wait) (hs : s.cpu.cpu_suspended = false) :
      Step s Label.reqSpinRead s
  | reqSpinExit (s : Sys) (h : s.req = ReqLoc.wait) (hs : s.cpu.cpu_suspended = true) :
      Step s Label.reqSpinRead { s with req := ReqLoc.ret }
  | resume (s : Sys) :
      Step s Label.resume { s with cpu := { s.cpu with suspend_cpu := false } }
  | parkReq (s : Sys) :
      Step s Label.parkReq { s with cpu := { s.cpu with park := true } }
  | resetReq (s : Sys) :
      Step s Label.resetReq { s with cpu := { s.cpu with reset := true } }
  | flushReq (s : Sys) :
      Step s Label.flushReq { s with cpu := { s.cpu with flush_vcpu_caches := true } }
  | setEntry (s : Sys) (e : Nat) :
      Step s (Label.setEntry e) { s with cpu := { s.cpu with cpu_on_entry := e } }

end ArmControl

namespace ArmControl

/-! ## Helper lemmas -/

/-- After the locked body of an event-check pass, the `flush_vcpu_caches`
flag is always clear: a set flag is consumed, a clear flag stays clear. -/
theorem event_check_body_flush (c : PerCpu) :
    (event_check_body c).1.flush_vcpu_caches = false := by
  cases hp : c.park <;> cases hr : c.reset <;> cases hf : c.flush_vcpu_caches <;>
    by_cases he : c.cpu_on_entry = PSCI_INVALID_ADDRESS <;>
    simp [event_check_body, enter_cpu_off, hp, hr, hf, he]

/-- Pointwise characterisation of the per-CPU states produced by the
`arch_flush_cell_vcpu_caches` loop: exactly the non-calling members of the
cpu set get their `flush_vcpu_caches` flag set, nothing else changes. -/
theorem flush_cell_loop_fst (this_cpu : Nat) (cpu_set : List Nat) (cpus : Nat → PerCpu)
    (calls : List ExtCall) (cpu : Nat) :
    (flush_cell_loop this_cpu cpu_set cpus calls).1 cpu =
      if cpu ∈ cpu_set ∧ cpu ≠ this_cpu then { cpus cpu with flush_vcpu_caches := true }
      else cpus cpu := by
  induction cpu_set generalizing cpus calls with
  | nil => simp [flush_cell_loop]
  | cons c rest ih =>
    by_cases hc : c = this_cpu
    · subst hc
      simp only [flush_cell_loop, if_pos rfl, ih]
      by_cases hmem : cpu ∈ rest <;> by_cases hne : cpu = c <;> simp_all
    · simp only [flush_cell_loop, if_neg hc, ih]
      by_cases hq : cpu = c
      · subst hq
        by_cases hmem : cpu ∈ rest <;> simp_all [Function.update]
      · simp_all [Function.update, Ne.symm hq]

/-- The calls made by the `arch_flush_cell_vcpu_caches` loop are exactly one
inline TLB flush per occurrence of the calling core in the cpu set. -/
theorem flush_cell_loop_snd (this_cpu : Nat) (cpu_set : List Nat) (cpus : Nat → PerCpu)
    (calls : List ExtCall) :
    (flush_cell_loop this_cpu cpu_set cpus calls).2 =
      calls ++ List.replicate (cpu_set.count this_cpu) ExtCall.tlbFlush := by
  induction cpu_set generalizing cpus calls with
  | nil => simp [flush_cell_loop]
  | cons c rest ih =>
    by_cases hc : c = this_cpu
    · subst hc
      simp [flush_cell_loop, ih, List.count_cons, List.replicate_succ]
    · simp [flush_cell_loop, hc, ih, List.count_cons]

/-! ## Claim theorems -/

/-- C1: on a core with both `park` and `reset` set, the locked body of an
event-check pass takes the powered-off transition (`park` cleared,
`wait_for_poweron` set) and never decides the reset-entry transition (the
local `reset` decision stays false); when the pass runs uninterfered
(`suspend_cpu` clear) the whole pass therefore ends in the `parked` outcome,
never `resetTo`. The `park` check has priority over the `reset` check. -/
theorem park_priority (c : PerCpu) (hp : c.park = true) (_hr : c.reset = true) :
    ((event_check_body c).1.park = false ∧ (event_check_body c).1.wait_for_poweron = true ∧
      (event_check_body c).2.1 = false) ∧
    (c.suspend_cpu = false →
      ∃ c' calls, check_events c = some (c', CheckOutcome.parked, calls) ∧
        c'.park = false ∧ c'.wait_for_poweron = true) := by
  constructor
  · simp [event_check_body, enter_cpu_off, hp]
    cases hf : c.flush_vcpu_caches <;> simp [hf]
  · intro hs
    simp [check_events, event_check_body, enter_cpu_off, arm_cpu_park, hp, hs]
    cases hf : c.flush_vcpu_caches <;> simp [hf]

/-- C1 witness: a core with both flags set, `suspend_cpu` clear. -/
theorem park_priority_witness :
    ((event_check_body (PerCpu.mk false false true true false false 4096 0 0 0 0)).1.park = false ∧
      (event_check_body (PerCpu.mk false false true true false false 4096 0 0 0 0)).1.wait_for_poweron = true ∧
      (event_check_body (PerCpu.mk false false true true false false 4096 0 0 0 0)).2.1 = false) ∧
    ((PerCpu.mk false false true true false false 4096 0 0 0 0).suspend_cpu = false →
      ∃ c' calls,
        check_events (PerCpu.mk false false true true false false 4096 0 0 0 0) =
          some (c', CheckOutcome.parked, calls) ∧
        c'.park = false ∧ c'.wait_for_poweron = true) :=
  park_priority (PerCpu.mk false false true true false false 4096 0 0 0 0) rfl rfl

/-- C2: (a) any step by which `arch_suspend_cpu` returns (the requester
reaches `ret`, either through the fast path that observed `cpu_suspended`
under the lock or through the exit read of its acknowledgment spin) ends in
a state with `cpu_suspended` true; (b) from a state with `suspend_cpu` and
`cpu_suspended` both true, every step other than `arch_resume_cpu` preserves
both, so `cpu_suspended` stays true until resume is called; (c) the only
step that clears `suspend_cpu` is `arch_resume_cpu`; (d) the owning core
clears `cpu_suspended` only from a state where `suspend_cpu` is already
clear. -/
theorem suspend_holds_until_resume :
    (∀ s l s', Step s l s' → s.req ≠ ReqLoc.ret → s'.req = ReqLoc.ret →
      s'.cpu.cpu_suspended = true) ∧
    (∀ s l s', Step s l s' → l ≠ Label.resume →
      s.cpu.suspend_cpu = true → s.cpu.cpu_suspended = true →
      s'.cpu.suspend_cpu = true ∧ s'.cpu.cpu_suspended = true) ∧
    (∀ s l s', Step s l s' → s.cpu.suspend_cpu = true → s'.cpu.suspend_cpu = false →
      l = Label.resume) ∧
    (∀ s l s', Step s l s' → s.cpu.cpu_suspended = true → s'.cpu.cpu_suspended = false →
      s.cpu.suspend_cpu = false) := by
  refine ⟨?_, ?_, ?_, ?_⟩ <;> intro s l s' hst <;> cases hst <;> intros <;>
    (try split_ifs at *) <;> simp_all [event_check_body, enter_cpu_off]

/-- C2 witness: a spin-loop read of the owner while suspended preserves the
suspended acknowledgment. -/
theorem suspend_holds_until_resume_witness :
    (Sys.mk (PerCpu.mk true true false false false false 0 0 0 0 0)
        OwnerLoc.spin ReqLoc.idle false 0).cpu.suspend_cpu = true ∧
    (Sys.mk (PerCpu.mk true true false false false false 0 0 0 0 0)
        OwnerLoc.spin ReqLoc.idle false 0).cpu.cpu_suspended = true :=
  suspend_holds_until_resume.2.1
    (Sys.mk (PerCpu.mk true true false false false false 0 0 0 0 0)
      OwnerLoc.spin ReqLoc.idle false 0)
    Label.spinRead
    (Sys.mk (PerCpu.mk true true false false false false 0 0 0 0 0)
      OwnerLoc.spin ReqLoc.idle false 0)
    (Step.spinRead _ rfl rfl) (by decide) rfl rfl

/-- C3: `arch_handle_phys_irq` on the maintenance interrupt returns true,
adds exactly `count` to the maintenance-vmexit counter and changes no other
field (it only asks the irqchip to inject pending interrupts); on any other
interrupt it returns false, adds exactly `count` to the virtual-IRQ-vmexit
counter, and marks that interrupt pending exactly once, independent of
`count`. -/
theorem phys_irq_routing (mirq : Nat) (c : PerCpu) (irqn count : Nat) :
    (irqn = mirq →
      arch_handle_phys_irq mirq c irqn count =
        (true, { c with stats_maintenance := c.stats_maintenance + count },
         [ExtCall.injectPending])) ∧
    (irqn ≠ mirq →
      arch_handle_phys_irq mirq c irqn count =
        (false, { c with stats_virq := c.stats_virq + count },
         [ExtCall.setPending irqn])) := by
  constructor <;> intro h <;> simp [arch_handle_phys_irq, h]

/-- C3 witness: maintenance interrupt 25 with count 4, and a forwarded
interrupt 33 with count 4. -/
theorem phys_irq_routing_witness :
    arch_handle_phys_irq 25 (PerCpu.mk false false false false false false 0 0 0 0 0) 25 4 =
      (true, PerCpu.mk false false false false false false 0 0 0 4 0,
       [ExtCall.injectPending]) ∧
    arch_handle_phys_irq 25 (PerCpu.mk false false false false false false 0 0 0 0 0) 33 4 =
      (false, PerCpu.mk false false false false false false 0 0 0 0 4,
       [ExtCall.setPending 33]) :=
  ⟨(phys_irq_routing 25 (PerCpu.mk false false false false false false 0 0 0 0 0) 25 4).1 rfl,
   (phys_irq_routing 25 (PerCpu.mk false false false false false false 0 0 0 0 0) 33 4).2
     (by decide)⟩

/-- C4 counterexample: the claim says any core with `reset` set and
`cpu_on_entry = PSCI_INVALID_ADDRESS` has `reset` cleared by the pass. On a
core that also has `park` set, the pass parks through the `park` branch,
which breaks out of the loop before the `reset` branch runs: the pass
completes with outcome `parked` but `reset` still set. -/
theorem reset_invalid_entry_cex :
    ((check_events (PerCpu.mk false false true true false false PSCI_INVALID_ADDRESS 0 0 0 0)).map
      (fun r => (r.1.reset, r.2.1))) = some (true, CheckOutcome.parked) := by decide

/-- C4 (amended): on a core whose `reset` flag is set while `cpu_on_entry`
is the invalid-entry sentinel and whose `park` flag is not also set (park
would win the tie-break and leave `reset` pending), the event-check pass
clears `reset` and takes the powered-off transition (`park` clear,
`wait_for_poweron` set, outcome `parked`), never the reset-entry branch. -/
theorem reset_invalid_entry_parks (c : PerCpu)
    (hr : c.reset = true) (he : c.cpu_on_entry = PSCI_INVALID_ADDRESS)
    (hp : c.park = false) (hs : c.suspend_cpu = false) :
    ∃ c' calls, check_events c = some (c', CheckOutcome.parked, calls) ∧
      c'.reset = false ∧ c'.park = false ∧ c'.wait_for_poweron = true := by
  simp [check_events, event_check_body, enter_cpu_off, arm_cpu_park, hr, he, hp, hs]
  cases hf : c.flush_vcpu_caches <;> simp [hf]

/-- C4 witness: a plain reset request with the invalid sentinel recorded. -/
theorem reset_invalid_entry_parks_witness :
    ∃ c' calls,
      check_events (PerCpu.mk false false false true false false PSCI_INVALID_ADDRESS 0 0 0 0) =
        some (c', CheckOutcome.parked, calls) ∧
      c'.reset = false ∧ c'.park = false ∧ c'.wait_for_poweron = true :=
  reset_invalid_entry_parks
    (PerCpu.mk false false false true false false PSCI_INVALID_ADDRESS 0 0 0 0)
    rfl rfl rfl rfl

/-- C5: on a parked core (`wait_for_poweron` set, `park` clear) whose
recorded `cpu_on_entry` is a valid address `e`, an `arch_reset_cpu` request
(which sets `reset` and clears `suspend_cpu` via resume) makes the next
event-check pass clear `reset`, clear `wait_for_poweron`, and branch to `e`
through the reset path (`arm_cpu_reset e` is called, outcome `resetTo e`). -/
theorem reset_parked_core (c : PerCpu) (e : Nat)
    (hw : c.wait_for_poweron = true) (hp : c.park = false)
    (he : c.cpu_on_entry = e) (hv : e ≠ PSCI_INVALID_ADDRESS) :
    ∃ c' calls, check_events (arch_reset_cpu c) = some (c', CheckOutcome.resetTo e, calls) ∧
      c'.reset = false ∧ c'.wait_for_poweron = false ∧ ExtCall.cpuReset e ∈ calls := by
  simp [check_events, event_check_body, enter_cpu_off, arch_reset_cpu, arch_resume_cpu,
        hw, hp, he, hv]
  cases hf : c.flush_vcpu_caches <;> simp [hf] <;>
    exact ⟨_, _, ⟨rfl, rfl⟩, rfl, rfl, by simp⟩

/-- C5 witness: a parked, suspended core reset to entry 32768. -/
theorem reset_parked_core_witness :
    ∃ c' calls,
      check_events (arch_reset_cpu (PerCpu.mk true false false false true false 32768 0 0 0 0)) =
        some (c', CheckOutcome.resetTo 32768, calls) ∧
      c'.reset = false ∧ c'.wait_for_poweron = false ∧ ExtCall.cpuReset 32768 ∈ calls :=
  reset_parked_core (PerCpu.mk true false false false true false 32768 0 0 0 0) 32768
    rfl rfl rfl (by decide)

/-- C6 counterexample: the claim requires the `park`, `reset` and
`flush_vcpu_caches` mutations of the public entry points to happen with the
target's `control_lock` held, but in the transcribed traces of
`arch_reset_cpu`, `arch_park_cpu`, and the remote arm of
`arch_flush_cell_vcpu_caches`, each of those stores happens at lock
depth 0, before (or entirely without) the lock acquisition of the embedded
`arch_resume_cpu`. -/
theorem lock_discipline_cex :
    writes_locked arch_reset_cpu_trace = false ∧
    writes_locked arch_park_cpu_trace = false ∧
    writes_locked flush_remote_cpu_trace = false := by decide

/-- C6 (amended): the lock-held mutations are those of `arch_suspend_cpu`,
`arch_resume_cpu` and the park path (`arm_cpu_park` performs all its
control-state writes, `wait_for_poweron` included, under the lock), while
the `park`, `reset` and `flush_vcpu_caches` flags written by
`arch_park_cpu`, `arch_reset_cpu` and `arch_flush_cell_vcpu_caches` are
single stores issued without holding the target core's `control_lock`. -/
theorem lock_discipline_amended :
    writes_locked arch_resume_cpu_trace = true ∧
    writes_locked arch_suspend_cpu_fast_trace = true ∧
    (∀ cpu_id : Nat, writes_locked (arch_suspend_cpu_slow_trace cpu_id) = true) ∧
    all_writes_locked arm_cpu_park_trace = true ∧
    writes_locked arch_reset_cpu_trace = false ∧
    writes_locked arch_park_cpu_trace = false ∧
    writes_locked flush_remote_cpu_trace = false :=
  ⟨rfl, rfl, fun _ => rfl, rfl, rfl, rfl, rfl⟩

/-- C7: `arch_suspend_cpu` on an already-suspended target (its
`cpu_suspended` read true under the lock) returns at once having sent no
signal, merely (re)asserting `suspend_cpu`; repeating the call gives the
same state and again zero signals. In the concurrent model, no step at all
from a state with `cpu_suspended` true changes the signal count. -/
theorem suspend_idempotent :
    (∀ c : PerCpu, c.cpu_suspended = true →
      arch_suspend_cpu c = some ({ c with suspend_cpu := true }, 0) ∧
      arch_suspend_cpu { c with suspend_cpu := true } =
        some ({ c with suspend_cpu := true }, 0)) ∧
    (∀ s l s', Step s l s' → s.cpu.cpu_suspended = true → s'.sigCount = s.sigCount) := by
  constructor
  · intro c h
    constructor <;> simp [arch_suspend_cpu, h]
  · intro s l s' hst h
    cases hst <;> simp_all

/-- C7 witness: a second suspend of a suspended core. -/
theorem suspend_idempotent_witness :
    arch_suspend_cpu (PerCpu.mk false true false false false false 0 0 0 0 0) =
      some (PerCpu.mk true true false false false false 0 0 0 0 0, 0) ∧
    arch_suspend_cpu (PerCpu.mk true true false false false false 0 0 0 0 0) =
      some (PerCpu.mk true true false false false false 0 0 0 0 0, 0) :=
  suspend_idempotent.1 (PerCpu.mk false true false false false false 0 0 0 0 0) rfl

/-- C8: `arch_flush_cell_vcpu_caches` sends no signal (its call list holds
only the inline TLB flushes, one per occurrence of the calling core in the
cell's cpu set); the calling core's own state, flag included, is untouched;
every other member of the cpu set gets exactly its `flush_vcpu_caches` flag
set and no other field changed; cores outside the set are untouched; and a
completed event-check pass is what leaves the flag clear. -/
theorem flush_cell_frame (this_cpu : Nat) (cpu_set : List Nat) (cpus : Nat → PerCpu) :
    (∀ t i, ExtCall.sendSGI t i ∉ (arch_flush_cell_vcpu_caches this_cpu cpu_set cpus).2) ∧
    ((arch_flush_cell_vcpu_caches this_cpu cpu_set cpus).1 this_cpu = cpus this_cpu) ∧
    (∀ cpu, cpu ∈ cpu_set → cpu ≠ this_cpu →
      (arch_flush_cell_vcpu_caches this_cpu cpu_set cpus).1 cpu =
        { cpus cpu with flush_vcpu_caches := true }) ∧
    (∀ cpu, cpu ∉ cpu_set →
      (arch_flush_cell_vcpu_caches this_cpu cpu_set cpus).1 cpu = cpus cpu) ∧
    ((arch_flush_cell_vcpu_caches this_cpu cpu_set cpus).2 =
      List.replicate (cpu_set.count this_cpu) ExtCall.tlbFlush) ∧
    (∀ c c' out calls, check_events c = some (c', out, calls) →
      c'.flush_vcpu_caches = false) := by
  refine ⟨?_, ?_, ?_, ?_, ?_, ?_⟩
  · intro t i hmem
    rw [arch_flush_cell_vcpu_caches, flush_cell_loop_snd] at hmem
    simp [List.eq_of_mem_replicate] at hmem
  · rw [arch_flush_cell_vcpu_caches, flush_cell_loop_fst]
    simp
  · intro cpu hmem hne
    rw [arch_flush_cell_vcpu_caches, flush_cell_loop_fst]
    simp [hmem, hne]
  · intro cpu hmem
    rw [arch_flush_cell_vcpu_caches, flush_cell_loop_fst]
    simp [hmem]
  · rw [arch_flush_cell_vcpu_caches, flush_cell_loop_snd]
    simp
  · intro c c' out calls h
    simp only [check_events] at h
    split_ifs at h <;>
      simp only [Option.some.injEq, Prod.mk.injEq] at h <;>
      obtain ⟨hc, -, -⟩ := h <;> subst hc <;>
      simp [arm_cpu_park, enter_cpu_off, event_check_body_flush]

/-- C8 witness: calling core 1 flushing cell cpu set 0,1,2: core 1
untouched, core 2 flagged, core 5 (outside) untouched, one inline flush. -/
theorem flush_cell_frame_witness :
    ((arch_flush_cell_vcpu_caches 1 [0, 1, 2]
        (fun _ => PerCpu.mk false false false false false false 0 0 0 0 0)).1 1 =
      PerCpu.mk false false false false false false 0 0 0 0 0) ∧
    ((arch_flush_cell_vcpu_caches 1 [0, 1, 2]
        (fun _ => PerCpu.mk false false false false false false 0 0 0 0 0)).1 2 =
      PerCpu.mk false false false false false true 0 0 0 0 0) ∧
    ((arch_flush_cell_vcpu_caches 1 [0, 1, 2]
        (fun _ => PerCpu.mk false false false false false false 0 0 0 0 0)).1 5 =
      PerCpu.mk false false false false false false 0 0 0 0 0) ∧
    ((arch_flush_cell_vcpu_caches 1 [0, 1, 2]
        (fun _ => PerCpu.mk false false false false false false 0 0 0 0 0)).2 =
      [ExtCall.tlbFlush]) :=
  ⟨(flush_cell_frame 1 [0, 1, 2]
      (fun _ => PerCpu.mk false false false false false false 0 0 0 0 0)).2.1,
   (flush_cell_frame 1 [0, 1, 2]
      (fun _ => PerCpu.mk false false false false false false 0 0 0 0 0)).2.2.1
     2 (by decide) (by decide),
   (flush_cell_frame 1 [0, 1, 2]
      (fun _ => PerCpu.mk false false false false false false 0 0 0 0 0)).2.2.2.1
     5 (by decide),
   by
     have h := (flush_cell_frame 1 [0, 1, 2]
       (fun _ => PerCpu.mk false false false false false false 0 0 0 0 0)).2.2.2.2.1
     simpa using h⟩

/-- C9: `arch_handle_sgi` on any SGI id other than `SGI_INJECT` and
`SGI_EVENT` leaves the whole per-CPU state unchanged (no counter
increments), makes no collaborator call (neither the state machine nor the
injection path runs), and only emits a warning line. -/
theorem unknown_sgi_noop (c : PerCpu) (irqn count : Nat)
    (h1 : irqn ≠ SGI_INJECT) (h2 : irqn ≠ SGI_EVENT) :
    arch_handle_sgi c irqn count =
      some (c, [], ["WARN: unknown SGI received " ++ toString irqn]) := by
  simp [arch_handle_sgi, h1, h2]

/-- C9 witness: SGI id 7 with count 3. -/
theorem unknown_sgi_noop_witness :
    arch_handle_sgi (PerCpu.mk false false false false false false 0 0 0 0 0) 7 3 =
      some (PerCpu.mk false false false false false false 0 0 0 0 0, [],
            ["WARN: unknown SGI received " ++ toString 7]) :=
  unknown_sgi_noop (PerCpu.mk false false false false false false 0 0 0 0 0) 7 3
    (by decide) (by decide)

/-- C10: `arm_cpu_park` first clears `park` and sets `wait_for_poweron`
(in its trace every control-state write happens under the lock), and then
resets the core's execution context with entry address 0 — not the stored
`cpu_on_entry` — strictly before installing the parking address space. -/
theorem cpu_park_resets_entry_zero (c : PerCpu) :
    arm_cpu_park c = ({ c with park := false, wait_for_poweron := true },
      [ExtCall.cpuReset 0, ExtCall.pagingVcpuInit PagingMode.parking]) ∧
    (c.cpu_on_entry ≠ 0 → ExtCall.cpuReset c.cpu_on_entry ∉ (arm_cpu_park c).2) ∧
    all_writes_locked arm_cpu_park_trace = true ∧
    List.indexOf (TraceEv.call (ExtCall.cpuReset 0)) arm_cpu_park_trace <
      List.indexOf (TraceEv.call (ExtCall.pagingVcpuInit PagingMode.parking))
        arm_cpu_park_trace := by
  refine ⟨rfl, ?_, by decide, by decide⟩
  intro h
  simp [arm_cpu_park, enter_cpu_off, h]

/-- C10 witness: parking a core whose recorded entry is 32768. -/
theorem cpu_park_resets_entry_zero_witness :
    arm_cpu_park (PerCpu.mk false false true false false false 32768 0 0 0 0) =
      (PerCpu.mk false false false false true false 32768 0 0 0 0,
       [ExtCall.cpuReset 0, ExtCall.pagingVcpuInit PagingMode.parking]) ∧
    ExtCall.cpuReset 32768 ∉
      (arm_cpu_park (PerCpu.mk false false true false false false 32768 0 0 0 0)).2 ∧
    all_writes_locked arm_cpu_park_trace = true :=
  ⟨(cpu_park_resets_entry_zero (PerCpu.mk false false true false false false 32768 0 0 0 0)).1,
   (cpu_park_resets_entry_zero (PerCpu.mk false false true false false false 32768 0 0 0 0)).2.1
     (by decide),
   (cpu_park_resets_entry_zero (PerCpu.mk false false true false false false 32768 0 0 0 0)).2.2.1⟩

end ArmControl
